import Mathlib

/-!
Shallow embedding of the APAPHX_ADS1015 library core
(`src/APAPHX_ADS1015.h` v1.1 header + `src/APAPHX_ADS1015.cpp`).

Modelling conventions:
* C `float` values are modelled as exact rationals (`ℚ`); the special
  not-a-number / infinity states that the code tests with `isnan`/`isinf`
  are modelled by the two-constructor type `FVal` (`fin q` or `nonfin`).
* The hardware read `readADC_SingleEnded(0)` is an external effect; each
  call of `updateReading` therefore takes the current `millis()` value and
  the raw ADC code delivered by the bus as explicit oracle inputs.
* `millis() - _lastSampleTime >= _config.delay_ms` mixes `unsigned long`
  (32-bit on the target) with `int`; both sides are reduced mod 2^32 as in
  the C integer conversions.
* `new float[n]` yields indeterminate contents; the freshly allocated
  sample buffer is modelled as `List.replicate n FVal.nonfin` (the
  contents are irrelevant: each cell is overwritten before it is read).
-/

/-- Measurement state machine states (`enum class PHXState`). -/
inductive PHXState where
  | IDLE
  | COLLECTING
  | PROCESSING
deriving DecidableEq

/-- Error conditions for measurements (`enum class PHXError`, v1.1). -/
inductive PHXError where
  | NONE
  | PH_LOW
  | PH_HIGH
  | ORP_LOW
  | ORP_HIGH
  | TEMP_INVALID
deriving DecidableEq

/-- A C `float` value: either an ordinary (finite) number or one of the
special values (NaN / ±infinity) that `isnan`/`isinf` detect. -/
inductive FVal where
  | fin : ℚ → FVal
  | nonfin : FVal
deriving DecidableEq

/-- The finite payload of an `FVal`, if any. -/
def FVal.toFin? : FVal → Option ℚ
  | .fin q => some q
  | .nonfin => none

/-- Two-point calibration data structure (`struct PHX_Calibration`). -/
structure PHX_Calibration where
  ref1_mV : ℚ
  ref2_mV : ℚ
  ref1_value : ℚ
  ref2_value : ℚ
deriving DecidableEq

/-- Reading configuration structure (`struct PHXConfig`). `samples` and
`delay_ms` are C `int`, `avg_buffer` is `uint8_t`. -/
structure PHXConfig where
  type : String
  samples : Int
  delay_ms : Int
  avg_buffer : Nat
deriving DecidableEq

/-- Gain setting `ADS1015_REG_SET_GAIN0_6_144V`. -/
def ADS1015_REG_SET_GAIN0_6_144V : Nat := 0x0000
/-- Gain setting `ADS1015_REG_SET_GAIN1_4_096V`. -/
def ADS1015_REG_SET_GAIN1_4_096V : Nat := 0x0200
/-- Gain setting `ADS1015_REG_SET_GAIN2_2_048V`. -/
def ADS1015_REG_SET_GAIN2_2_048V : Nat := 0x0400
/-- Gain setting `ADS1015_REG_SET_GAIN4_1_024V`. -/
def ADS1015_REG_SET_GAIN4_1_024V : Nat := 0x0600
/-- Gain setting `ADS1015_REG_SET_GAIN8_0_512V`. -/
def ADS1015_REG_SET_GAIN8_0_512V : Nat := 0x0800
/-- Gain setting `ADS1015_REG_SET_GAIN16_0_256V`. -/
def ADS1015_REG_SET_GAIN16_0_256V : Nat := 0x0A00

/-- The full-scale voltage selected by the gain switch at the top of the
`COLLECTING` case of `ADS1015::updateReading` (default: widest range). -/
def voltageRangeForGain (gain : Nat) : ℚ :=
  if gain = ADS1015_REG_SET_GAIN0_6_144V then 6144/1000
  else if gain = ADS1015_REG_SET_GAIN1_4_096V then 4096/1000
  else if gain = ADS1015_REG_SET_GAIN2_2_048V then 2048/1000
  else if gain = ADS1015_REG_SET_GAIN4_1_024V then 1024/1000
  else if gain = ADS1015_REG_SET_GAIN8_0_512V then 512/1000
  else if gain = ADS1015_REG_SET_GAIN16_0_256V then 256/1000
  else 6144/1000

/-- One stored sample: `(rawReading * voltageRange) / 2048.0f`. -/
def sampleVoltage (gain : Nat) (raw : Int) : ℚ :=
  ((raw : ℚ) * voltageRangeForGain gain) / 2048

/-- Arduino `constrain(x, lo, hi)`. -/
def constrain (x lo hi : Nat) : Nat :=
  if x < lo then lo else if x > hi then hi else x

/-- `ADS1015::MAX_AVG_BUFFER`. -/
def MAX_AVG_BUFFER : Nat := 10

/-- `ADS1015::STABILITY_THRESHOLD` (0.5f). -/
def STABILITY_THRESHOLD : ℚ := 1/2

/-- `ADS1015::isValidTemperature`: `temperature >= 0.0f && temperature <= 50.0f`. -/
def isValidTemperature (temperature : ℚ) : Bool :=
  decide (0 ≤ temperature ∧ temperature ≤ 50)

/-- `ADS1015::applyTemperatureCompensation` (Pasco 2001 formula):
`((pH_raw - 7) * (273.15 + current_temp)) / (273.15 + 25) + 7`. -/
def applyTemperatureCompensation (pH_raw current_temp : ℚ) : ℚ :=
  ((pH_raw - 7) * (27315/100 + current_temp)) / (27315/100 + 25) + 7

/-- The state of one `ADS1015` object (private fields of `class ADS1015`,
v1.1 header). Heap buffers are `Option (List _)`: `none` is the null
pointer. -/
structure ADS1015 where
  _i2cAddress : Nat
  _gain : Nat
  _state : PHXState
  _lastError : PHXError
  _readingComplete : Bool
  _lastReading : ℚ
  _temperatureCompensationEnabled : Bool
  _currentTemperature : ℚ
  ph_cal : PHX_Calibration
  orp_cal : PHX_Calibration
  _config : PHXConfig
  _readings : Option (List FVal)
  _lastReadings : Option (List ℚ)
  _avgBufferSize : Nat
  _currentSample : Int
  _readingIndex : Nat
  _rollingAverageReady : Bool
  _lastSampleTime : Nat
deriving DecidableEq

/-- A freshly constructed `ADS1015(i2cAddress)` with the field
initializers of the class declaration (`_config` is an uninitialized POD;
it is given an arbitrary fixed value here). -/
def ADS1015.init (i2cAddress : Nat) : ADS1015 where
  _i2cAddress := i2cAddress
  _gain := ADS1015_REG_SET_GAIN0_6_144V
  _state := PHXState.IDLE
  _lastError := PHXError.NONE
  _readingComplete := false
  _lastReading := 0
  _temperatureCompensationEnabled := false
  _currentTemperature := 25
  ph_cal := ⟨0, 0, 4, 7⟩
  orp_cal := ⟨0, 0, 475, 650⟩
  _config := ⟨"", 0, 0, 0⟩
  _readings := none
  _lastReadings := none
  _avgBufferSize := 1
  _currentSample := 0
  _readingIndex := 0
  _rollingAverageReady := false
  _lastSampleTime := 0

/-- Status getter `getState`. -/
def ADS1015.getState (s : ADS1015) : PHXState := s._state
/-- Status getter `isReadingComplete`. -/
def ADS1015.isReadingComplete (s : ADS1015) : Bool := s._readingComplete
/-- Status getter `getLastReading`. -/
def ADS1015.getLastReading (s : ADS1015) : ℚ := s._lastReading
/-- Status getter `getLastError`. -/
def ADS1015.getLastError (s : ADS1015) : PHXError := s._lastError
/-- Getter `getCurrentTemperature`. -/
def ADS1015.getCurrentTemperature (s : ADS1015) : ℚ := s._currentTemperature
/-- Getter `isTemperatureCompensationEnabled`. -/
def ADS1015.isTemperatureCompensationEnabled (s : ADS1015) : Bool :=
  s._temperatureCompensationEnabled

/-- `ADS1015::setGain`. -/
def ADS1015.setGain (s : ADS1015) (gain : Nat) : ADS1015 :=
  { s with _gain := gain }

/-- `ADS1015::enableTemperatureCompensation`. -/
def ADS1015.enableTemperatureCompensation (s : ADS1015) (enabled : Bool) : ADS1015 :=
  { s with _temperatureCompensationEnabled := enabled }

/-- `ADS1015::setTemperature`. -/
def ADS1015.setTemperature (s : ADS1015) (temperature : ℚ) : ADS1015 :=
  if isValidTemperature temperature then
    { s with _currentTemperature := temperature
             _lastError := if s._lastError = PHXError.TEMP_INVALID then PHXError.NONE
                           else s._lastError }
  else
    { s with _lastError := PHXError.TEMP_INVALID }

/-- `ADS1015::calibratePHX`: stores the record under `"ph"` or `"rx"`
(`strcmp` dispatch); any other type string matches neither branch. -/
def ADS1015.calibratePHX (s : ADS1015) (type : String) (cal : PHX_Calibration) : ADS1015 :=
  if type = "ph" then { s with ph_cal := cal }
  else if type = "rx" then { s with orp_cal := cal }
  else s

/-- `ADS1015::startReading`. -/
def ADS1015.startReading (s : ADS1015) (config : PHXConfig) : ADS1015 :=
  if s._state ≠ PHXState.IDLE then s
  else
    let avgSize := constrain config.avg_buffer 1 MAX_AVG_BUFFER
    { s with _config := config
             _currentSample := 0
             _readingComplete := false
             _lastError := PHXError.NONE
             _avgBufferSize := avgSize
             _lastReadings := some (List.replicate avgSize 0)
             _readingIndex := 0
             _rollingAverageReady := false
             _readings := some (List.replicate config.samples.toNat FVal.nonfin)
             _state := PHXState.COLLECTING }

/-- `millis() - _lastSampleTime >= _config.delay_ms`: both operands are
converted to the 32-bit `unsigned long` of the target before comparing. -/
def sampleDue (now last : Nat) (delay_ms : Int) : Bool :=
  decide ((delay_ms.emod 4294967296) ≤ (((now : Int) - (last : Int)).emod 4294967296))

/-- The valid (finite) sample values among the collected readings, in
order — exactly the values accumulated by the `!isnan && !isinf` loop of
the `PROCESSING` case. -/
def validValues (l : List FVal) : List ℚ := l.filterMap FVal.toFin?

/-- The averaged millivolt value `(raw_sum / validSamples) * 1000.0f`
computed by the `PROCESSING` case. -/
def averagedMV (l : List FVal) : ℚ :=
  ((validValues l).sum / ((validValues l).length : ℚ)) * 1000

/-- The two-point calibration formula of the `PROCESSING` case:
`cal->ref1_value + (cal->ref2_value - cal->ref1_value) * (mV - cal->ref1_mV) / (cal->ref2_mV - cal->ref1_mV)`. -/
def calibratedValue (cal : PHX_Calibration) (mV : ℚ) : ℚ :=
  cal.ref1_value + (cal.ref2_value - cal.ref1_value) * (mV - cal.ref1_mV) /
    (cal.ref2_mV - cal.ref1_mV)

/-- The range-validation block of the `PROCESSING` case: clamps to the
pH domain [0,14] or the ORP domain [0,1000] and chooses the error code;
a type matching neither `"ph"` nor `"rx"` leaves value and error alone
(`e0` is the incoming `_lastError`). -/
def rangeValidate (type : String) (v : ℚ) (e0 : PHXError) : ℚ × PHXError :=
  if type = "ph" then
    if v < 0 then (0, PHXError.PH_LOW)
    else if v > 14 then (14, PHXError.PH_HIGH)
    else (v, PHXError.NONE)
  else if type = "rx" then
    if v < 0 then (0, PHXError.ORP_LOW)
    else if v > 1000 then (1000, PHXError.ORP_HIGH)
    else (v, PHXError.NONE)
  else (v, e0)

/-- The `PROCESSING` case of `ADS1015::updateReading`: average the valid
samples, apply calibration if the two reference voltages differ by more
than 0.001, apply temperature compensation for `"ph"` when enabled and
the temperature is valid, then range-validate.  When no sample is valid
the reading is 0 and the buffer is not freed (the `break` skips the
`delete[]`). -/
def ADS1015.processingStep (s : ADS1015) : ADS1015 :=
  let buf := (s._readings.getD []).take s._config.samples.toNat
  let vals := validValues buf
  if vals.length = 0 then
    { s with _lastReading := 0
             _state := PHXState.IDLE
             _readingComplete := true }
  else
    let mV := (vals.sum / (vals.length : ℚ)) * 1000
    let cal := if s._config.type = "ph" then s.ph_cal else s.orp_cal
    let out :=
      if 1/1000 < |cal.ref2_mV - cal.ref1_mV| then
        let rawValue := calibratedValue cal mV
        let pre :=
          if s._config.type = "ph" ∧ s._temperatureCompensationEnabled = true ∧
             isValidTemperature s._currentTemperature = true then
            applyTemperatureCompensation rawValue s._currentTemperature
          else rawValue
        rangeValidate s._config.type pre s._lastError
      else (mV, s._lastError)
    { s with _lastReading := out.1
             _lastError := out.2
             _readings := none
             _readingComplete := true
             _state := PHXState.IDLE }

/-- `ADS1015::updateReading`, with the current `millis()` value and the
raw ADC code of `readADC_SingleEnded(0)` supplied as oracle inputs. -/
def ADS1015.updateReading (s : ADS1015) (now : Nat) (raw : Int) : ADS1015 :=
  match s._state with
  | PHXState.COLLECTING =>
    if sampleDue now s._lastSampleTime s._config.delay_ms then
      let v := sampleVoltage s._gain raw
      let buf := (s._readings.getD []).set s._currentSample.toNat (FVal.fin v)
      let s1 := { s with _readings := some buf
                         _lastSampleTime := now
                         _currentSample := s._currentSample + 1 }
      if s1._currentSample ≥ s._config.samples then
        { s1 with _state := PHXState.PROCESSING }
      else s1
    else s
  | PHXState.PROCESSING => s.processingStep
  | PHXState.IDLE => s

/-- `ADS1015::cancelReading`. -/
def ADS1015.cancelReading (s : ADS1015) : ADS1015 :=
  { s with _readings := none
           _state := PHXState.IDLE
           _readingComplete := false
           _lastError := PHXError.NONE }

/-- Drive the state machine through a sequence of `updateReading` calls;
each event carries the `millis()` value and the raw ADC code seen by that
call. -/
def runUpdates (s : ADS1015) (evs : List (Nat × Int)) : ADS1015 :=
  evs.foldl (fun t e => t.updateReading e.1 e.2) s

/-- One acquisition cycle: `startReading(config)` followed by a sequence
of `updateReading` calls. -/
def cycleRun (s0 : ADS1015) (config : PHXConfig) (evs : List (Nat × Int)) : ADS1015 :=
  runUpdates (s0.startReading config) evs

/-- The value/error outcome of the `PROCESSING` conversion pipeline for a
cycle whose collecting phase left the last error at `NONE`, as a function
of the measurement type, the two stored calibration records, the
temperature state, and the averaged millivolt value. -/
def convertOutcome (type : String) (phc orpc : PHX_Calibration) (tempEn : Bool)
    (temp : ℚ) (mV : ℚ) : ℚ × PHXError :=
  let cal := if type = "ph" then phc else orpc
  if 1/1000 < |cal.ref2_mV - cal.ref1_mV| then
    let rawValue := calibratedValue cal mV
    let pre :=
      if type = "ph" ∧ tempEn = true ∧ isValidTemperature temp = true then
        applyTemperatureCompensation rawValue temp
      else rawValue
    rangeValidate type pre PHXError.NONE
  else (mV, PHXError.NONE)

/-- Fields of a mid-cycle state that `startReading` fixed at the start of
the cycle and that the collecting phase never touches. -/
def midInv (s0 : ADS1015) (config : PHXConfig) (s : ADS1015) : Prop :=
  s._config = config ∧ s.ph_cal = s0.ph_cal ∧ s.orp_cal = s0.orp_cal ∧
  s._temperatureCompensationEnabled = s0._temperatureCompensationEnabled ∧
  s._currentTemperature = s0._currentTemperature ∧
  s._lastError = PHXError.NONE ∧ s._readingComplete = false ∧ s._gain = s0._gain

/-- Collecting-phase buffer invariant: the allocated buffer has exactly
the configured number of cells, the write cursor is strictly inside it,
and every cell below the cursor has been overwritten with a finite sample. -/
def collectInv (config : PHXConfig) (s : ADS1015) : Prop :=
  ∃ buf : List FVal, s._readings = some buf ∧ buf.length = config.samples.toNat ∧
    0 ≤ s._currentSample ∧ s._currentSample < config.samples ∧
    ∀ i : Nat, i < s._currentSample.toNat → ∃ q : ℚ, buf[i]? = some (FVal.fin q)

/-- Processing-phase buffer invariant: a full buffer of finite samples. -/
def procInv (config : PHXConfig) (s : ADS1015) : Prop :=
  ∃ buf : List FVal, s._readings = some buf ∧ buf.length = config.samples.toNat ∧
    ∀ v ∈ buf, ∃ q : ℚ, v = FVal.fin q

/-- Characterization of a completed cycle: some fully-written buffer of
finite samples determines the final reading and error through the
conversion pipeline. -/
def FinalChar (s0 : ADS1015) (config : PHXConfig) (s : ADS1015) : Prop :=
  ∃ buf : List FVal, buf.length = config.samples.toNat ∧
    (∀ v ∈ buf, ∃ q : ℚ, v = FVal.fin q) ∧
    s._lastReading = (convertOutcome config.type s0.ph_cal s0.orp_cal
      s0._temperatureCompensationEnabled s0._currentTemperature (averagedMV buf)).1 ∧
    s._lastError = (convertOutcome config.type s0.ph_cal s0.orp_cal
      s0._temperatureCompensationEnabled s0._currentTemperature (averagedMV buf)).2

/-- Disjunctive invariant maintained by every `updateReading` call of a
cycle started from `IDLE` with at least one requested sample. -/
def cycleInv (s0 : ADS1015) (config : PHXConfig) (s : ADS1015) : Prop :=
  (s._state = PHXState.COLLECTING ∧ midInv s0 config s ∧ collectInv config s)
  ∨ (s._state = PHXState.PROCESSING ∧ midInv s0 config s ∧ procInv config s)
  ∨ (s._state = PHXState.IDLE ∧ (s._readingComplete = true → FinalChar s0 config s))

/-- The fixed configuration built inside `ADS1015::calibratePHXReading`:
100 samples, 10 ms between samples, no averaging. -/
def calConfigFor (type : String) : PHXConfig := ⟨type, 100, 10, 1⟩

/-- One blocking round
`startReading(calConfig); while (getState() != IDLE) updateReading();`
of `calibratePHXReading`, driven by the oracle events `evs`; `none` when
the supplied events do not bring the machine back to `IDLE` (the real
loop would simply keep polling). -/
def calibCycle (s : ADS1015) (type : String) (evs : List (Nat × Int)) : Option ADS1015 :=
  let s1 := runUpdates (s.startReading (calConfigFor type)) evs
  if s1._state = PHXState.IDLE then some s1 else none

/-- `ADS1015::calibratePHXReading`, with the unbounded `do … while` loop
given explicit fuel and the ADC/clock oracle supplying the events of the
k-th blocking acquisition cycle as `evss k`; returns the reading together
with the final machine state.  `none` models non-termination (fuel
exhausted, or a cycle that never completes). -/
def calibratePHXReadingFuel (type : String) (evss : Nat → List (Nat × Int)) :
    Nat → Nat → ADS1015 → Option (ℚ × ADS1015)
  | 0, _, _ => none
  | fuel+1, k, s =>
    match calibCycle s type (evss k) with
    | none => none
    | some s1 =>
      match calibCycle s1 type (evss (k+1)) with
      | none => none
      | some s2 =>
        if |(s1._lastReading + s2._lastReading) / 2 - s1._lastReading| ≥
             STABILITY_THRESHOLD ∨
           |(s1._lastReading + s2._lastReading) / 2 - s2._lastReading| ≥
             STABILITY_THRESHOLD
        then calibratePHXReadingFuel type evss fuel (k+2) s2
        else some ((s1._lastReading + s2._lastReading) / 2, s2)

/-- Concrete machine for the C1 counterexample: non-degenerate acidity
calibration (0 mV → 0.0, 1 mV → 1.0), temperature compensation enabled,
stored temperature 30 °C. -/
def c1cexStart : ADS1015 := { ADS1015.init 72 with
  ph_cal := ⟨0, 1, 0, 1⟩
  _temperatureCompensationEnabled := true
  _currentTemperature := 30 }

/-- One-sample acidity configuration used by the concrete cycles. -/
def oneSamplePh : PHXConfig := ⟨"ph", 1, 0, 1⟩

/-- Concrete machine for the C2 counterexample: gain ±4.096 V, acidity
calibration (0 mV → 4.0, 100 mV → 7.0), compensation disabled. -/
def c2cexStart : ADS1015 := { ADS1015.init 72 with
  _gain := ADS1015_REG_SET_GAIN1_4_096V
  ph_cal := ⟨0, 100, 4, 7⟩ }

/-- The state reached by `startReading` with a zero sample count: the
machine is `COLLECTING` over a zero-length allocation. -/
def c4cexState : ADS1015 := (ADS1015.init 72).startReading ⟨"ph", 0, 0, 1⟩

/-- Oracle event streams for the concrete `calibratePHXReading` runs:
cycle k consists of 100 due sample events 10 ms apart followed by one
call that executes the `PROCESSING` step; cycle 0 delivers raw code 0
throughout (cycle output 0 mV under the degenerate default calibration),
cycle 1 delivers raw code 1 for its first 30 samples (cycle output
0.9 mV). -/
def c9cexEvents (k : Nat) : List (Nat × Int) :=
  (List.range 101).map (fun i => (1020*k + 10*(i+1), if k = 1 ∧ i < 30 then 1 else 0))

/-- The first 30 events of `c9cexEvents 1` (raw code 1). -/
def c9ev1a : List (Nat × Int) := (List.range 30).map (fun i => (1020 + 10*(i+1), 1))

/-- The remaining 71 events of `c9cexEvents 1` (raw code 0). -/
def c9ev1b : List (Nat × Int) := (List.range 71).map (fun i => (1020 + 10*(i+31), 0))

/-- The machine state after the first blocking cycle of the concrete
`calibratePHXReading` runs (all raw codes 0, so the degenerate default
calibration returns the averaged 0 mV). -/
def c9state1 : ADS1015 where
  _i2cAddress := 72
  _gain := 0
  _state := PHXState.IDLE
  _lastError := PHXError.NONE
  _readingComplete := true
  _lastReading := 0
  _temperatureCompensationEnabled := false
  _currentTemperature := 25
  ph_cal := ⟨0, 0, 4, 7⟩
  orp_cal := ⟨0, 0, 475, 650⟩
  _config := ⟨"ph", 100, 10, 1⟩
  _readings := none
  _lastReadings := some [0]
  _avgBufferSize := 1
  _currentSample := 100
  _readingIndex := 0
  _rollingAverageReady := false
  _lastSampleTime := 1000

/-- The mid-collection state of the second blocking cycle, after its
first 30 samples (raw code 1, i.e. 3 mV each) have been stored. -/
def c9mid : ADS1015 := { c9state1 with
  _state := PHXState.COLLECTING
  _readingComplete := false
  _readings := some (List.replicate 30 (FVal.fin (3/1000)) ++ List.replicate 70 FVal.nonfin)
  _currentSample := 30
  _lastSampleTime := 1320 }

/-- The machine state after the second blocking cycle: averaged output
0.9 mV. -/
def c9state2 : ADS1015 := { c9state1 with
  _lastReading := 9/10
  _lastSampleTime := 2020 }

/-- Concrete machine for the C3 witness: gain ±2.048 V (one raw code =
one millivolt), acidity calibration (0 mV → 0.0, 100 mV → 10.0),
compensation enabled, stored temperature 30 °C. -/
def c3witStart : ADS1015 := { ADS1015.init 72 with
  _gain := ADS1015_REG_SET_GAIN2_2_048V
  ph_cal := ⟨0, 100, 0, 10⟩
  _temperatureCompensationEnabled := true
  _currentTemperature := 30 }

/-- Concrete `PROCESSING` state for the C5 witness: one stored sample,
which is non-finite. -/
def c5witState : ADS1015 := { ADS1015.init 72 with
  _state := PHXState.PROCESSING
  _readings := some [FVal.nonfin]
  _config := ⟨"ph", 1, 0, 1⟩ }

/-- A machine frozen mid-collection, for the C7 witness. -/
def c7witState : ADS1015 := { ADS1015.init 72 with
  _state := PHXState.COLLECTING }

lemma updateReading_idle (s : ADS1015) (now : Nat) (raw : Int)
    (h : s._state = PHXState.IDLE) : s.updateReading now raw = s := by
  simp [ADS1015.updateReading, h]

lemma updateReading_processing (s : ADS1015) (now : Nat) (raw : Int)
    (h : s._state = PHXState.PROCESSING) : s.updateReading now raw = s.processingStep := by
  simp [ADS1015.updateReading, h]

lemma runUpdates_nil (s : ADS1015) : runUpdates s [] = s := rfl

lemma runUpdates_cons (s : ADS1015) (e : Nat × Int) (evs : List (Nat × Int)) :
    runUpdates s (e :: evs) = runUpdates (s.updateReading e.1 e.2) evs := rfl

lemma runUpdates_idle (s : ADS1015) (evs : List (Nat × Int))
    (h : s._state = PHXState.IDLE) : runUpdates s evs = s := by
  induction evs with
  | nil => rfl
  | cons e evs ih => rw [runUpdates_cons, updateReading_idle s e.1 e.2 h]; exact ih

lemma validValues_allfin (l : List FVal) (h : ∀ v ∈ l, ∃ q : ℚ, v = FVal.fin q) :
    (validValues l).length = l.length := by
  induction l with
  | nil => rfl
  | cons a l ih =>
    obtain ⟨q, hq⟩ := h a (List.mem_cons_self a l)
    subst hq
    have := ih (fun v hv => h v (List.mem_cons_of_mem _ hv))
    simp [validValues, FVal.toFin?] at this ⊢
    exact this

lemma startReading_establishes (s0 : ADS1015) (config : PHXConfig)
    (hidle : s0._state = PHXState.IDLE) (hsamp : 1 ≤ config.samples) :
    cycleInv s0 config (s0.startReading config) := by
  left
  refine ⟨?_, ?_, ?_⟩
  · simp [ADS1015.startReading, hidle]
  · simp [ADS1015.startReading, hidle, midInv]
  · refine ⟨List.replicate config.samples.toNat FVal.nonfin, ?_, ?_, ?_, ?_, ?_⟩
    · simp [ADS1015.startReading, hidle]
    · simp
    · simp [ADS1015.startReading, hidle]
    · simp [ADS1015.startReading, hidle]; omega
    · intro i hi
      simp [ADS1015.startReading, hidle] at hi

lemma updateReading_collecting (s0 : ADS1015) (config : PHXConfig) (s : ADS1015)
    (now : Nat) (raw : Int)
    (hst : s._state = PHXState.COLLECTING) (hmid : midInv s0 config s)
    (hcol : collectInv config s) :
    cycleInv s0 config (s.updateReading now raw) := by
  obtain ⟨hconf, hph, horp, hten, htmp, herr, hcomp, hgain⟩ := hmid
  obtain ⟨buf, hbuf, hlen, hcur0, hcurlt, hpre⟩ := hcol
  by_cases hdue : sampleDue now s._lastSampleTime s._config.delay_ms
  case neg =>
    have hid : s.updateReading now raw = s := by
      simp [ADS1015.updateReading, hst, hdue]
    rw [hid]
    exact Or.inl ⟨hst, ⟨hconf, hph, horp, hten, htmp, herr, hcomp, hgain⟩,
      ⟨buf, hbuf, hlen, hcur0, hcurlt, hpre⟩⟩
  case pos =>
    rw [hconf] at hdue
    have hsetlen : (buf.set s._currentSample.toNat
        (FVal.fin (sampleVoltage s._gain raw))).length = config.samples.toNat := by
      rw [List.length_set]; exact hlen
    have hinb : s._currentSample.toNat < buf.length := by rw [hlen]; omega
    have hprefix : ∀ i : Nat, i < s._currentSample.toNat + 1 →
        ∃ q : ℚ, (buf.set s._currentSample.toNat
          (FVal.fin (sampleVoltage s._gain raw)))[i]? = some (FVal.fin q) := by
      intro i hi
      by_cases hic : i = s._currentSample.toNat
      · subst hic
        exact ⟨sampleVoltage s._gain raw, List.getElem?_set_self hinb⟩
      · obtain ⟨q, hq⟩ := hpre i (by omega)
        exact ⟨q, by rw [List.getElem?_set_ne (fun h => hic h.symm)]; exact hq⟩
    by_cases hdone : s._currentSample + 1 ≥ s._config.samples
    case pos =>
      rw [hconf] at hdone
      have hres : s.updateReading now raw =
          { s with _readings := some (buf.set s._currentSample.toNat
                      (FVal.fin (sampleVoltage s._gain raw)))
                   _lastSampleTime := now
                   _currentSample := s._currentSample + 1
                   _state := PHXState.PROCESSING } := by
        simp [ADS1015.updateReading, hst, hdue, hbuf, hconf, hdone]
      rw [hres]
      refine Or.inr (Or.inl ⟨rfl, ⟨hconf, hph, horp, hten, htmp, herr, hcomp, hgain⟩,
        ⟨buf.set s._currentSample.toNat (FVal.fin (sampleVoltage s._gain raw)),
          rfl, hsetlen, ?_⟩⟩)
      intro v hv
      obtain ⟨i, hi⟩ := List.mem_iff_getElem?.mp hv
      have hilt2 : i < (buf.set s._currentSample.toNat
          (FVal.fin (sampleVoltage s._gain raw))).length :=
        (List.getElem?_eq_some.mp hi).1
      rw [hsetlen] at hilt2
      have hilt : i < s._currentSample.toNat + 1 := by omega
      obtain ⟨q, hq⟩ := hprefix i hilt
      rw [hi] at hq
      refine ⟨q, ?_⟩
      injection hq
    case neg =>
      rw [hconf] at hdone
      have hres : s.updateReading now raw =
          { s with _readings := some (buf.set s._currentSample.toNat
                      (FVal.fin (sampleVoltage s._gain raw)))
                   _lastSampleTime := now
                   _currentSample := s._currentSample + 1 } := by
        simp [ADS1015.updateReading, hst, hdue, hbuf, hconf, hdone]
      rw [hres]
      refine Or.inl ⟨hst, ⟨hconf, hph, horp, hten, htmp, herr, hcomp, hgain⟩,
        ⟨buf.set s._currentSample.toNat (FVal.fin (sampleVoltage s._gain raw)),
          rfl, hsetlen, ?_, ?_, ?_⟩⟩
      · show 0 ≤ s._currentSample + 1
        omega
      · show s._currentSample + 1 < config.samples
        omega
      · intro i hi
        have hi2 : i < (s._currentSample + 1).toNat := hi
        exact hprefix i (by omega)

lemma processingStep_final (s0 : ADS1015) (config : PHXConfig) (s : ADS1015)
    (hmid : midInv s0 config s) (hproc : procInv config s) (hsamp : 1 ≤ config.samples) :
    (s.processingStep)._state = PHXState.IDLE ∧
    (s.processingStep)._readingComplete = true ∧ FinalChar s0 config s.processingStep := by
  obtain ⟨hconf, hph, horp, hten, htmp, herr, hcomp, hgain⟩ := hmid
  obtain ⟨buf, hbuf, hlen, hfin⟩ := hproc
  have htake : (s._readings.getD []).take config.samples.toNat = buf := by
    rw [hbuf, Option.getD_some, ← hlen]
    exact List.take_length buf
  have hvlen : (validValues buf).length = buf.length := validValues_allfin buf hfin
  have hne : ¬ ((validValues buf).length = 0) := by
    rw [hvlen, hlen]; omega
  have hout : s.processingStep =
      { s with _lastReading := (convertOutcome config.type s0.ph_cal s0.orp_cal
                  s0._temperatureCompensationEnabled s0._currentTemperature
                  (averagedMV buf)).1
               _lastError := (convertOutcome config.type s0.ph_cal s0.orp_cal
                  s0._temperatureCompensationEnabled s0._currentTemperature
                  (averagedMV buf)).2
               _readings := none
               _readingComplete := true
               _state := PHXState.IDLE } := by
    simp only [ADS1015.processingStep, htake, convertOutcome, averagedMV,
      hconf, hph, horp, hten, htmp, herr, if_neg hne]
  rw [hout]
  exact ⟨rfl, rfl, ⟨buf, hlen, hfin, rfl, rfl⟩⟩

lemma cycleInv_step (s0 : ADS1015) (config : PHXConfig) (s : ADS1015) (now : Nat) (raw : Int)
    (hsamp : 1 ≤ config.samples) (h : cycleInv s0 config s) :
    cycleInv s0 config (s.updateReading now raw) := by
  rcases h with ⟨hst, hmid, hcol⟩ | ⟨hst, hmid, hproc⟩ | ⟨hst, hdone⟩
  · exact updateReading_collecting s0 config s now raw hst hmid hcol
  · rw [updateReading_processing s now raw hst]
    obtain ⟨h1, h2, h3⟩ := processingStep_final s0 config s hmid hproc hsamp
    exact Or.inr (Or.inr ⟨h1, fun _ => h3⟩)
  · rw [updateReading_idle s now raw hst]
    exact Or.inr (Or.inr ⟨hst, hdone⟩)

lemma cycleInv_run (s0 : ADS1015) (config : PHXConfig) (evs : List (Nat × Int))
    (hsamp : 1 ≤ config.samples) :
    ∀ s : ADS1015, cycleInv s0 config s → cycleInv s0 config (runUpdates s evs) := by
  induction evs with
  | nil => intro s h; exact h
  | cons e evs ih =>
    intro s h
    rw [runUpdates_cons]
    exact ih _ (cycleInv_step s0 config s e.1 e.2 hsamp h)

lemma cycleRun_inv (s0 : ADS1015) (config : PHXConfig) (evs : List (Nat × Int))
    (hidle : s0._state = PHXState.IDLE) (hsamp : 1 ≤ config.samples) :
    cycleInv s0 config (cycleRun s0 config evs) :=
  cycleInv_run s0 config evs hsamp _ (startReading_establishes s0 config hidle hsamp)

/-- Master characterization: a cycle that reports completion ended in
`IDLE` with its final reading and error given by the conversion pipeline
applied to the averaged millivolt value of a fully collected buffer of
finite samples. -/
lemma cycleRun_completed (s0 : ADS1015) (config : PHXConfig) (evs : List (Nat × Int))
    (hidle : s0._state = PHXState.IDLE) (hsamp : 1 ≤ config.samples)
    (hdone : (cycleRun s0 config evs)._readingComplete = true) :
    (cycleRun s0 config evs)._state = PHXState.IDLE ∧
    FinalChar s0 config (cycleRun s0 config evs) := by
  rcases cycleRun_inv s0 config evs hidle hsamp with
    ⟨hst, hmid, hcol⟩ | ⟨hst, hmid, hproc⟩ | ⟨hst, hfc⟩
  · exact absurd hdone (by rw [hmid.2.2.2.2.2.2.1]; simp)
  · exact absurd hdone (by rw [hmid.2.2.2.2.2.2.1]; simp)
  · exact ⟨hst, hfc hdone⟩

/-- C5: if the `PROCESSING` step of `updateReading` finds zero
numerically valid collected samples (every stored sample is NaN or
infinite), the cycle still completes: the result value is 0.0, the last
error stays `NONE`, the completion flag is set, and the state returns to
`IDLE`. -/
theorem c5_processing_no_valid_samples (s : ADS1015) (now : Nat) (raw : Int)
    (buf : List FVal)
    (hst : s.getState = PHXState.PROCESSING)
    (hbuf : s._readings = some buf)
    (hinv : ∀ v ∈ buf, FVal.toFin? v = none)
    (herr : s.getLastError = PHXError.NONE) :
    (s.updateReading now raw).getLastReading = 0 ∧
    (s.updateReading now raw).getLastError = PHXError.NONE ∧
    (s.updateReading now raw).isReadingComplete = true ∧
    (s.updateReading now raw).getState = PHXState.IDLE := by
  have hst' : s._state = PHXState.PROCESSING := hst
  rw [updateReading_processing s now raw hst']
  have hnil : validValues ((s._readings.getD []).take s._config.samples.toNat) = [] := by
    rw [hbuf, Option.getD_some]
    exact List.filterMap_eq_nil_iff.mpr (fun v hv => hinv v (List.mem_of_mem_take hv))
  have hzero : (validValues ((s._readings.getD []).take s._config.samples.toNat)).length = 0 := by
    rw [hnil]; rfl
  have hout : s.processingStep =
      { s with _lastReading := 0
               _state := PHXState.IDLE
               _readingComplete := true } := by
    simp only [ADS1015.processingStep, if_pos hzero]
  rw [hout]
  exact ⟨rfl, herr, rfl, rfl⟩

/-- C6: `setTemperature(t)` with `t` outside [0, 50] °C sets
`TEMP_INVALID` and leaves the stored temperature unchanged; with `t`
inside [0, 50] it stores `t`, turns a pending `TEMP_INVALID` into `NONE`
(leaving any other error alone), and in particular never leaves
`TEMP_INVALID` set. -/
theorem c6_setTemperature_validation (s : ADS1015) (t : ℚ) :
    (¬ (0 ≤ t ∧ t ≤ 50) →
      (s.setTemperature t).getLastError = PHXError.TEMP_INVALID ∧
      (s.setTemperature t).getCurrentTemperature = s.getCurrentTemperature) ∧
    ((0 ≤ t ∧ t ≤ 50) →
      (s.setTemperature t).getCurrentTemperature = t ∧
      (s.setTemperature t).getLastError =
        (if s.getLastError = PHXError.TEMP_INVALID then PHXError.NONE
         else s.getLastError) ∧
      (s.setTemperature t).getLastError ≠ PHXError.TEMP_INVALID) := by
  constructor
  · intro h
    simp [ADS1015.setTemperature, isValidTemperature, h, ADS1015.getLastError,
      ADS1015.getCurrentTemperature]
  · intro h
    refine ⟨?_, ?_, ?_⟩
    · simp [ADS1015.setTemperature, isValidTemperature, h, ADS1015.getCurrentTemperature]
    · simp [ADS1015.setTemperature, isValidTemperature, h, ADS1015.getLastError]
    · by_cases he : s._lastError = PHXError.TEMP_INVALID <;>
        simp [ADS1015.setTemperature, isValidTemperature, h, ADS1015.getLastError, he]

/-- C7: `startReading` invoked while the state is not `IDLE` is a
complete no-op: the returned object is the unchanged receiver (state,
buffers, configuration, last reading, last error and completion flag all
included). -/
theorem c7_startReading_nonidle_noop (s : ADS1015) (config : PHXConfig)
    (h : s.getState ≠ PHXState.IDLE) : s.startReading config = s := by
  have h' : s._state ≠ PHXState.IDLE := h
  simp [ADS1015.startReading, h']

/-- C8: `cancelReading` from any state returns the machine to `IDLE`
with the completion flag cleared and the last error `NONE`. -/
theorem c8_cancelReading_resets (s : ADS1015) :
    (s.cancelReading).getState = PHXState.IDLE ∧
    (s.cancelReading).isReadingComplete = false ∧
    (s.cancelReading).getLastError = PHXError.NONE :=
  ⟨rfl, rfl, rfl⟩

/-- C10: `calibratePHX(type, cal)` with a type string that is neither
`"ph"` nor `"rx"` leaves both stored calibration records unchanged. -/
theorem c10_calibratePHX_unknown_type (s : ADS1015) (type : String)
    (cal : PHX_Calibration) (h1 : type ≠ "ph") (h2 : type ≠ "rx") :
    (s.calibratePHX type cal).ph_cal = s.ph_cal ∧
    (s.calibratePHX type cal).orp_cal = s.orp_cal := by
  simp [ADS1015.calibratePHX, h1, h2]

/-- C1 (amended): for every completed acquisition cycle, when the active
calibration record's two reference voltages differ by more than 0.001 mV
*and temperature compensation does not apply*, the value fed into range
validation is the linear extrapolation
`ref1_value + (ref2_value - ref1_value) * (averaged_mV - ref1_mV) / (ref2_mV - ref1_mV)`
of the averaged millivolt value; when they differ by 0.001 mV or less the
result is the averaged millivolt value unchanged and the reported error
is `NONE`. (Unamended, the first half is false: for an acidity cycle with
compensation enabled the value before range validation is the
*compensated* calibrated value, see the counterexample.) -/
theorem c1_calibration_formula (s0 : ADS1015) (config : PHXConfig)
    (evs : List (Nat × Int))
    (hidle : s0.getState = PHXState.IDLE) (hsamp : 1 ≤ config.samples)
    (hdone : (cycleRun s0 config evs).isReadingComplete = true) :
    ∃ buf : List FVal, buf.length = config.samples.toNat ∧
      (∀ v ∈ buf, ∃ q : ℚ, v = FVal.fin q) ∧
      (1/1000 < |(if config.type = "ph" then s0.ph_cal else s0.orp_cal).ref2_mV -
          (if config.type = "ph" then s0.ph_cal else s0.orp_cal).ref1_mV| →
        ¬ (config.type = "ph" ∧ s0.isTemperatureCompensationEnabled = true ∧
            isValidTemperature s0.getCurrentTemperature = true) →
        (cycleRun s0 config evs).getLastReading =
          (rangeValidate config.type
            (calibratedValue (if config.type = "ph" then s0.ph_cal else s0.orp_cal)
              (averagedMV buf)) PHXError.NONE).1 ∧
        (cycleRun s0 config evs).getLastError =
          (rangeValidate config.type
            (calibratedValue (if config.type = "ph" then s0.ph_cal else s0.orp_cal)
              (averagedMV buf)) PHXError.NONE).2) ∧
      (¬ (1/1000 < |(if config.type = "ph" then s0.ph_cal else s0.orp_cal).ref2_mV -
          (if config.type = "ph" then s0.ph_cal else s0.orp_cal).ref1_mV|) →
        (cycleRun s0 config evs).getLastReading = averagedMV buf ∧
        (cycleRun s0 config evs).getLastError = PHXError.NONE) := by
  obtain ⟨-, buf, hlen, hfin, hrv, herr⟩ := cycleRun_completed s0 config evs hidle hsamp hdone
  refine ⟨buf, hlen, hfin, ?_, ?_⟩
  · intro hcal hcomp
    have h1 : (cycleRun s0 config evs).getLastReading =
        (convertOutcome config.type s0.ph_cal s0.orp_cal
          s0._temperatureCompensationEnabled s0._currentTemperature (averagedMV buf)).1 := hrv
    have h2 : (cycleRun s0 config evs).getLastError =
        (convertOutcome config.type s0.ph_cal s0.orp_cal
          s0._temperatureCompensationEnabled s0._currentTemperature (averagedMV buf)).2 := herr
    rw [h1, h2]
    have hcomp' : ¬ (config.type = "ph" ∧
        s0._temperatureCompensationEnabled = true ∧
        isValidTemperature s0._currentTemperature = true) := hcomp
    simp only [convertOutcome, if_pos hcal, if_neg hcomp']
    exact ⟨trivial, trivial⟩
  · intro hcal
    have h1 : (cycleRun s0 config evs).getLastReading =
        (convertOutcome config.type s0.ph_cal s0.orp_cal
          s0._temperatureCompensationEnabled s0._currentTemperature (averagedMV buf)).1 := hrv
    have h2 : (cycleRun s0 config evs).getLastError =
        (convertOutcome config.type s0.ph_cal s0.orp_cal
          s0._temperatureCompensationEnabled s0._currentTemperature (averagedMV buf)).2 := herr
    rw [h1, h2]
    simp only [convertOutcome, if_neg hcal]
    exact ⟨trivial, trivial⟩



/-- C1 counterexample: a completed acidity cycle with a non-degenerate
calibration (reference voltages differ by 1 mV > 0.001 mV) whose averaged
millivolt value is 3, where the value before range validation — equal to
the final reading, since no clamping occurred (the reading lies strictly
inside (0, 14) and the error is `NONE`) — is the temperature-compensated
value, not the linear extrapolation `calibratedValue` of the claim. -/
theorem c1_counterexample :
    (cycleRun c1cexStart oneSamplePh [(10, 1), (20, 0)]).isReadingComplete = true ∧
    1/1000 < |c1cexStart.ph_cal.ref2_mV - c1cexStart.ph_cal.ref1_mV| ∧
    (runUpdates (c1cexStart.startReading oneSamplePh) [(10, 1)])._readings =
      some [FVal.fin (3/1000)] ∧
    averagedMV [FVal.fin (3/1000)] = 3 ∧
    (cycleRun c1cexStart oneSamplePh [(10, 1), (20, 0)]).getLastError = PHXError.NONE ∧
    0 < (cycleRun c1cexStart oneSamplePh [(10, 1), (20, 0)]).getLastReading ∧
    (cycleRun c1cexStart oneSamplePh [(10, 1), (20, 0)]).getLastReading < 14 ∧
    (cycleRun c1cexStart oneSamplePh [(10, 1), (20, 0)]).getLastReading =
      applyTemperatureCompensation (calibratedValue c1cexStart.ph_cal 3) 30 ∧
    (cycleRun c1cexStart oneSamplePh [(10, 1), (20, 0)]).getLastReading ≠
      calibratedValue c1cexStart.ph_cal 3 := by
  norm_num [cycleRun, runUpdates, ADS1015.updateReading, ADS1015.startReading,
    ADS1015.processingStep, sampleDue, sampleVoltage, voltageRangeForGain,
    validValues, FVal.toFin?, calibratedValue, rangeValidate, constrain,
    isValidTemperature, applyTemperatureCompensation, averagedMV, c1cexStart,
    oneSamplePh, ADS1015.init, ADS1015.getLastReading, ADS1015.getLastError,
    ADS1015.isReadingComplete, ADS1015_REG_SET_GAIN0_6_144V, MAX_AVG_BUFFER,
    List.filterMap_cons, List.filterMap_nil, -List.length_eq_zero]

/-- C2 (amended): with acidity calibration (0 mV → 4.0, 100 mV → 7.0) and
temperature compensation disabled, a completed cycle whose averaged
voltage is 0 mV yields 4.0; 100 mV yields 7.0; 50 mV yields 5.5; and
200 mV yields 10.0 — which lies inside the acidity domain [0, 14], so no
clamping occurs and the error is `NONE`. (Unamended, the claim's final
clause — clamping 10.0 to 14.0 with error `ACIDITY_HIGH` — is false, see
the counterexample.) -/
theorem c2_calibration_roundtrip (s0 : ADS1015) (config : PHXConfig)
    (evs : List (Nat × Int))
    (hidle : s0.getState = PHXState.IDLE) (hsamp : 1 ≤ config.samples)
    (hcal : s0.ph_cal = ⟨0, 100, 4, 7⟩) (htype : config.type = "ph")
    (hcomp : s0.isTemperatureCompensationEnabled = false)
    (hdone : (cycleRun s0 config evs).isReadingComplete = true) :
    ∃ buf : List FVal, buf.length = config.samples.toNat ∧
      (∀ v ∈ buf, ∃ q : ℚ, v = FVal.fin q) ∧
      (averagedMV buf = 0 → (cycleRun s0 config evs).getLastReading = 4 ∧
        (cycleRun s0 config evs).getLastError = PHXError.NONE) ∧
      (averagedMV buf = 100 → (cycleRun s0 config evs).getLastReading = 7 ∧
        (cycleRun s0 config evs).getLastError = PHXError.NONE) ∧
      (averagedMV buf = 50 → (cycleRun s0 config evs).getLastReading = 11/2 ∧
        (cycleRun s0 config evs).getLastError = PHXError.NONE) ∧
      (averagedMV buf = 200 →
        calibratedValue s0.ph_cal 200 = 10 ∧
        (cycleRun s0 config evs).getLastReading = 10 ∧
        (cycleRun s0 config evs).getLastError = PHXError.NONE) := by
  obtain ⟨-, buf, hlen, hfin, hrv, herr⟩ := cycleRun_completed s0 config evs hidle hsamp hdone
  have hcomp' : s0._temperatureCompensationEnabled = false := hcomp
  refine ⟨buf, hlen, hfin, ?_, ?_, ?_, ?_⟩ <;> intro hmv <;>
    simp only [ADS1015.getLastReading, ADS1015.getLastError] <;>
    rw [hrv, herr, hmv] <;>
    norm_num [convertOutcome, htype, hcal, hcomp', calibratedValue, rangeValidate]


/-- C2 counterexample: with calibration (0 mV → 4.0, 100 mV → 7.0) and
compensation disabled, a completed cycle whose averaged voltage is 200 mV
produces the reading 10.0 with error `NONE` — it is *not* clamped to 14.0
and the error is *not* `PH_HIGH`, because 10.0 already lies inside the
acidity domain [0, 14]. -/
theorem c2_counterexample :
    (cycleRun c2cexStart oneSamplePh [(10, 100), (20, 0)]).isReadingComplete = true ∧
    (runUpdates (c2cexStart.startReading oneSamplePh) [(10, 100)])._readings =
      some [FVal.fin (1/5)] ∧
    averagedMV [FVal.fin (1/5)] = 200 ∧
    (cycleRun c2cexStart oneSamplePh [(10, 100), (20, 0)]).getLastReading = 10 ∧
    (cycleRun c2cexStart oneSamplePh [(10, 100), (20, 0)]).getLastError = PHXError.NONE ∧
    (cycleRun c2cexStart oneSamplePh [(10, 100), (20, 0)]).getLastReading ≠ 14 ∧
    (cycleRun c2cexStart oneSamplePh [(10, 100), (20, 0)]).getLastError ≠
      PHXError.PH_HIGH := by
  norm_num [cycleRun, runUpdates, ADS1015.updateReading, ADS1015.startReading,
    ADS1015.processingStep, sampleDue, sampleVoltage, voltageRangeForGain,
    validValues, FVal.toFin?, calibratedValue, rangeValidate, constrain,
    isValidTemperature, applyTemperatureCompensation, averagedMV, c2cexStart,
    oneSamplePh, ADS1015.init, ADS1015.getLastReading, ADS1015.getLastError,
    ADS1015.isReadingComplete, ADS1015_REG_SET_GAIN0_6_144V,
    ADS1015_REG_SET_GAIN1_4_096V, ADS1015_REG_SET_GAIN2_2_048V,
    ADS1015_REG_SET_GAIN4_1_024V, ADS1015_REG_SET_GAIN8_0_512V,
    ADS1015_REG_SET_GAIN16_0_256V, MAX_AVG_BUFFER,
    List.filterMap_cons, List.filterMap_nil, -List.length_eq_zero]
  decide

/-- C3: for every completed cycle with a non-degenerate calibration, if
the kind is acidity, compensation is enabled and the stored temperature
is within [0, 50] °C, the value fed into range validation is the
Pasco-2001 compensation `(calibrated - 7) * (273.15 + T) / (273.15 + 25) + 7`
of the calibrated value; if compensation is disabled, or the kind is
redox, the value fed into range validation is the calibrated value
unchanged (redox is never temperature-compensated). -/
theorem c3_temperature_compensation (s0 : ADS1015) (config : PHXConfig)
    (evs : List (Nat × Int))
    (hidle : s0.getState = PHXState.IDLE) (hsamp : 1 ≤ config.samples)
    (hdone : (cycleRun s0 config evs).isReadingComplete = true) :
    ∃ buf : List FVal, buf.length = config.samples.toNat ∧
      (∀ v ∈ buf, ∃ q : ℚ, v = FVal.fin q) ∧
      (config.type = "ph" → 1/1000 < |s0.ph_cal.ref2_mV - s0.ph_cal.ref1_mV| →
        s0.isTemperatureCompensationEnabled = true →
        isValidTemperature s0.getCurrentTemperature = true →
        (cycleRun s0 config evs).getLastReading =
          (rangeValidate "ph"
            (applyTemperatureCompensation (calibratedValue s0.ph_cal (averagedMV buf))
              s0.getCurrentTemperature) PHXError.NONE).1 ∧
        (cycleRun s0 config evs).getLastError =
          (rangeValidate "ph"
            (applyTemperatureCompensation (calibratedValue s0.ph_cal (averagedMV buf))
              s0.getCurrentTemperature) PHXError.NONE).2) ∧
      (config.type = "ph" → 1/1000 < |s0.ph_cal.ref2_mV - s0.ph_cal.ref1_mV| →
        s0.isTemperatureCompensationEnabled = false →
        (cycleRun s0 config evs).getLastReading =
          (rangeValidate "ph" (calibratedValue s0.ph_cal (averagedMV buf))
            PHXError.NONE).1 ∧
        (cycleRun s0 config evs).getLastError =
          (rangeValidate "ph" (calibratedValue s0.ph_cal (averagedMV buf))
            PHXError.NONE).2) ∧
      (config.type = "rx" → 1/1000 < |s0.orp_cal.ref2_mV - s0.orp_cal.ref1_mV| →
        (cycleRun s0 config evs).getLastReading =
          (rangeValidate "rx" (calibratedValue s0.orp_cal (averagedMV buf))
            PHXError.NONE).1 ∧
        (cycleRun s0 config evs).getLastError =
          (rangeValidate "rx" (calibratedValue s0.orp_cal (averagedMV buf))
            PHXError.NONE).2) := by
  obtain ⟨-, buf, hlen, hfin, hrv, herr⟩ := cycleRun_completed s0 config evs hidle hsamp hdone
  refine ⟨buf, hlen, hfin, ?_, ?_, ?_⟩
  · intro htype hcal hen htv
    have hen' : s0._temperatureCompensationEnabled = true := hen
    have htv' : isValidTemperature s0._currentTemperature = true := htv
    simp only [ADS1015.getLastReading, ADS1015.getLastError,
      ADS1015.getCurrentTemperature]
    rw [hrv, herr, one_div] at *
    simp [convertOutcome, htype, hen', htv', hcal]
  · intro htype hcal hen
    have hen' : s0._temperatureCompensationEnabled = false := hen
    simp only [ADS1015.getLastReading, ADS1015.getLastError]
    rw [hrv, herr, one_div] at *
    simp [convertOutcome, htype, hen', hcal]
  · intro htype hcal
    simp only [ADS1015.getLastReading, ADS1015.getLastError]
    rw [hrv, herr, one_div] at *
    simp [convertOutcome, htype, hcal]

/-- C4 (amended): for every acquisition cycle started from `IDLE` with a
*positive* configured sample count, after any sequence of `updateReading`
calls the allocated sample buffer holds exactly the configured number of
cells and, whenever the machine is `COLLECTING`, the write cursor
`_currentSample` — the index of the next write `_readings[_currentSample]`
— is strictly below the buffer length, so every write is in bounds; in
`PROCESSING` the buffer still holds exactly the configured number of
cells, so the read loop over indices `0 ≤ i < samples` stays in bounds.
(Unamended, the claim is false for a configuration with `samples = 0`:
see the counterexample, where a due `updateReading` writes index 0 of a
zero-length allocation.) -/
theorem c4_buffer_bounds (s0 : ADS1015) (config : PHXConfig)
    (evs : List (Nat × Int))
    (hidle : s0.getState = PHXState.IDLE) (hsamp : 1 ≤ config.samples) :
    ((cycleRun s0 config evs).getState = PHXState.COLLECTING →
      ∃ buf : List FVal, (cycleRun s0 config evs)._readings = some buf ∧
        buf.length = config.samples.toNat ∧
        (cycleRun s0 config evs)._currentSample.toNat < buf.length) ∧
    ((cycleRun s0 config evs).getState = PHXState.PROCESSING →
      ∃ buf : List FVal, (cycleRun s0 config evs)._readings = some buf ∧
        buf.length = config.samples.toNat) := by
  rcases cycleRun_inv s0 config evs hidle hsamp with
    ⟨hst, hmid, hcol⟩ | ⟨hst, hmid, hproc⟩ | ⟨hst, hfc⟩
  · obtain ⟨buf, hbuf, hlen, hcur0, hcurlt, hpre⟩ := hcol
    refine ⟨fun _ => ⟨buf, hbuf, hlen, ?_⟩, fun hp => absurd hp (by rw [ADS1015.getState, hst]; simp)⟩
    rw [hlen]
    omega
  · obtain ⟨buf, hbuf, hlen, hfin⟩ := hproc
    exact ⟨fun hc => absurd hc (by rw [ADS1015.getState, hst]; simp),
      fun _ => ⟨buf, hbuf, hlen⟩⟩
  · exact ⟨fun hc => absurd hc (by rw [ADS1015.getState, hst]; simp),
      fun hp => absurd hp (by rw [ADS1015.getState, hst]; simp)⟩


/-- C4 counterexample: starting a cycle with `samples = 0` (a legal
`PHXConfig` under the claim's quantification) puts the machine in
`COLLECTING` with a zero-length buffer and write cursor 0, the very next
`updateReading` call is due, and the write `_readings[_currentSample]` it
performs is out of bounds (index 0 into length 0); the call indeed
executes the write path (the cursor advances to 1). -/
theorem c4_counterexample :
    c4cexState.getState = PHXState.COLLECTING ∧
    c4cexState._readings = some [] ∧
    c4cexState._currentSample = 0 ∧
    sampleDue 100 c4cexState._lastSampleTime c4cexState._config.delay_ms = true ∧
    ¬ (c4cexState._currentSample.toNat < (([] : List FVal)).length) ∧
    (c4cexState.updateReading 100 0)._currentSample = 1 := by
  decide




/-- C9 (amended): whenever `calibratePHXReading` returns, its result is
the mean of the last two consecutive completed-cycle outputs, and *each
of those outputs agrees with that mean* within the stability threshold
0.5 — hence the two outputs differ by less than 1.0 (but not necessarily
by at most 0.5, see the counterexample). -/
theorem c9_stable_mean (type : String) (evss : Nat → List (Nat × Int))
    (fuel k : Nat) (s : ADS1015) (r : ℚ) (sfin : ADS1015)
    (h : calibratePHXReadingFuel type evss fuel k s = some (r, sfin)) :
    ∃ (j : Nat) (sprev smid : ADS1015),
      calibCycle sprev type (evss j) = some smid ∧
      calibCycle smid type (evss (j+1)) = some sfin ∧
      r = (smid.getLastReading + sfin.getLastReading) / 2 ∧
      |r - smid.getLastReading| < STABILITY_THRESHOLD ∧
      |r - sfin.getLastReading| < STABILITY_THRESHOLD ∧
      |smid.getLastReading - sfin.getLastReading| < 1 := by
  induction fuel generalizing k s with
  | zero => exact absurd h (by simp [calibratePHXReadingFuel])
  | succ fuel ih =>
    rw [calibratePHXReadingFuel] at h
    cases hc1 : calibCycle s type (evss k) with
    | none => rw [hc1] at h; exact absurd h (by simp)
    | some s1 =>
      rw [hc1] at h
      dsimp only at h
      cases hc2 : calibCycle s1 type (evss (k+1)) with
      | none => rw [hc2] at h; exact absurd h (by simp)
      | some s2 =>
        rw [hc2] at h
        dsimp only at h
        by_cases hcond :
            |(s1._lastReading + s2._lastReading) / 2 - s1._lastReading| ≥
              STABILITY_THRESHOLD ∨
            |(s1._lastReading + s2._lastReading) / 2 - s2._lastReading| ≥
              STABILITY_THRESHOLD
        · rw [if_pos hcond] at h
          exact ih (k+2) s2 h
        · rw [if_neg hcond] at h
          push_neg at hcond
          obtain ⟨hA, hB⟩ := hcond
          have hpair : ((s1._lastReading + s2._lastReading) / 2, s2) = (r, sfin) :=
            Option.some.inj h
          obtain ⟨hr, hs⟩ := Prod.mk.inj hpair
          subst hs
          refine ⟨k, s, s1, hc1, hc2, hr.symm, ?_, ?_, ?_⟩
          · rw [← hr]; exact hA
          · rw [← hr]; exact hB
          · have h3 := abs_sub_le s1._lastReading
              ((s1._lastReading + s2._lastReading) / 2) s2._lastReading
            have hA' : |s1._lastReading - (s1._lastReading + s2._lastReading) / 2| <
                STABILITY_THRESHOLD := by
              rw [abs_sub_comm]; exact hA
            have hst : STABILITY_THRESHOLD = 1/2 := rfl
            rw [hst] at hA' hB
            show |s1._lastReading - s2._lastReading| < 1
            linarith

lemma runUpdates_append (s : ADS1015) (a b : List (Nat × Int)) :
    runUpdates s (a ++ b) = runUpdates (runUpdates s a) b :=
  List.foldl_append _ _ a b




lemma c9ev1_split : c9cexEvents 1 = c9ev1a ++ c9ev1b := by decide




set_option maxRecDepth 400000 in
set_option maxHeartbeats 4000000 in
lemma c9_cycle1a :
    runUpdates (c9state1.startReading (calConfigFor "ph")) c9ev1a = c9mid := by
  simp [calConfigFor, c9ev1a, runUpdates,
    ADS1015.updateReading, ADS1015.startReading, sampleDue,
    sampleVoltage, voltageRangeForGain, constrain,
    ADS1015.init, ADS1015_REG_SET_GAIN0_6_144V, MAX_AVG_BUFFER, c9state1, c9mid,
    List.range_succ, List.replicate_succ, Int.toNat_ofNat, -List.length_eq_zero]
  simp [List.set, List.range_succ, List.replicate_succ]
  norm_num

set_option maxRecDepth 400000 in
set_option maxHeartbeats 4000000 in
lemma c9_cycle1b :
    runUpdates c9mid c9ev1b = c9state2 := by
  simp [c9ev1b, runUpdates,
    ADS1015.updateReading, ADS1015.processingStep, sampleDue,
    sampleVoltage, voltageRangeForGain, validValues, FVal.toFin?, calibratedValue,
    rangeValidate, constrain, isValidTemperature, applyTemperatureCompensation,
    ADS1015_REG_SET_GAIN0_6_144V, MAX_AVG_BUFFER, c9state1, c9mid, c9state2,
    List.filterMap_cons, List.filterMap_nil, List.range_succ,
    List.replicate_succ, Int.toNat_ofNat, -List.length_eq_zero]
  norm_num

set_option maxRecDepth 400000 in
set_option maxHeartbeats 4000000 in
lemma c9_cycle0_eval :
    calibCycle (ADS1015.init 72) "ph" (c9cexEvents 0) = some c9state1 := by
  simp [calibCycle, calConfigFor, c9cexEvents, runUpdates,
    ADS1015.updateReading, ADS1015.startReading, ADS1015.processingStep, sampleDue,
    sampleVoltage, voltageRangeForGain, validValues, FVal.toFin?, calibratedValue,
    rangeValidate, constrain, isValidTemperature, applyTemperatureCompensation,
    ADS1015.init, ADS1015_REG_SET_GAIN0_6_144V, MAX_AVG_BUFFER, c9state1,
    List.filterMap_cons, List.filterMap_nil, List.range_succ,
    List.replicate_succ, -List.length_eq_zero]
  try simp [List.set, List.range_succ, List.replicate_succ]
  try norm_num

lemma c9_cycle1_eval :
    calibCycle c9state1 "ph" (c9cexEvents 1) = some c9state2 := by
  rw [calibCycle, c9ev1_split, runUpdates_append, c9_cycle1a, c9_cycle1b]
  simp [c9state2, c9state1]

set_option maxHeartbeats 1000000 in
theorem c9_counterexample :
    (calibratePHXReadingFuel "ph" c9cexEvents 1 0 (ADS1015.init 72)).map Prod.fst =
      some (9/20) ∧
    (calibCycle (ADS1015.init 72) "ph" (c9cexEvents 0)).map ADS1015.getLastReading =
      some 0 ∧
    ((calibCycle (ADS1015.init 72) "ph" (c9cexEvents 0)).bind
        (fun s1 => calibCycle s1 "ph" (c9cexEvents 1))).map ADS1015.getLastReading =
      some (9/10) ∧
    ¬ (|(0 : ℚ) - 9/10| ≤ STABILITY_THRESHOLD) := by
  refine ⟨?_, ?_, ?_, ?_⟩
  · show (calibratePHXReadingFuel "ph" c9cexEvents (0+1) 0 (ADS1015.init 72)).map Prod.fst =
      some (9/20)
    rw [calibratePHXReadingFuel, c9_cycle0_eval]
    dsimp only
    rw [c9_cycle1_eval]
    dsimp only
    have hcond : ¬ (|(c9state1._lastReading + c9state2._lastReading) / 2 -
          c9state1._lastReading| ≥ STABILITY_THRESHOLD ∨
        |(c9state1._lastReading + c9state2._lastReading) / 2 -
          c9state2._lastReading| ≥ STABILITY_THRESHOLD) := by
      norm_num [c9state1, c9state2, STABILITY_THRESHOLD, abs_lt, lt_abs]
    rw [if_neg hcond]
    norm_num [c9state1, c9state2]
  · rw [c9_cycle0_eval]
    norm_num [c9state1, ADS1015.getLastReading]
  · rw [c9_cycle0_eval, Option.some_bind, c9_cycle1_eval]
    norm_num [c9state2, c9state1, ADS1015.getLastReading]
  · norm_num [STABILITY_THRESHOLD, lt_abs]

set_option maxHeartbeats 1000000 in
theorem c9_stable_mean_witness :
    ∃ (r : ℚ) (sfin : ADS1015),
      calibratePHXReadingFuel "ph" c9cexEvents 1 0 (ADS1015.init 72) = some (r, sfin) ∧
      ∃ (j : Nat) (sprev smid : ADS1015),
        calibCycle sprev "ph" (c9cexEvents j) = some smid ∧
        calibCycle smid "ph" (c9cexEvents (j+1)) = some sfin ∧
        r = (smid.getLastReading + sfin.getLastReading) / 2 ∧
        |r - smid.getLastReading| < STABILITY_THRESHOLD ∧
        |r - sfin.getLastReading| < STABILITY_THRESHOLD ∧
        |smid.getLastReading - sfin.getLastReading| < 1 := by
  have hh : calibratePHXReadingFuel "ph" c9cexEvents 1 0 (ADS1015.init 72) =
      some (9/20, c9state2) := by
    show calibratePHXReadingFuel "ph" c9cexEvents (0+1) 0 (ADS1015.init 72) = _
    rw [calibratePHXReadingFuel, c9_cycle0_eval]
    dsimp only
    rw [c9_cycle1_eval]
    dsimp only
    have hcond : ¬ (|(c9state1._lastReading + c9state2._lastReading) / 2 -
          c9state1._lastReading| ≥ STABILITY_THRESHOLD ∨
        |(c9state1._lastReading + c9state2._lastReading) / 2 -
          c9state2._lastReading| ≥ STABILITY_THRESHOLD) := by
      norm_num [c9state1, c9state2, STABILITY_THRESHOLD, abs_lt, lt_abs]
    rw [if_neg hcond]
    norm_num [c9state1, c9state2]
  exact ⟨9/20, c9state2, hh, c9_stable_mean "ph" c9cexEvents 1 0 _ _ _ hh⟩

theorem c5_processing_no_valid_samples_witness :
    c5witState.getState = PHXState.PROCESSING ∧
    c5witState._readings = some [FVal.nonfin] ∧
    (∀ v ∈ [FVal.nonfin], FVal.toFin? v = none) ∧
    c5witState.getLastError = PHXError.NONE ∧
    ((c5witState.updateReading 0 0).getLastReading = 0 ∧
     (c5witState.updateReading 0 0).getLastError = PHXError.NONE ∧
     (c5witState.updateReading 0 0).isReadingComplete = true ∧
     (c5witState.updateReading 0 0).getState = PHXState.IDLE) :=
  ⟨rfl, rfl, by decide, rfl,
    c5_processing_no_valid_samples c5witState 0 0 [FVal.nonfin] rfl rfl (by decide) rfl⟩

theorem c6_setTemperature_validation_witness :
    (¬ ((0:ℚ) ≤ 60 ∧ (60:ℚ) ≤ 50)) ∧
    ((ADS1015.init 72).setTemperature 60).getLastError = PHXError.TEMP_INVALID ∧
    ((ADS1015.init 72).setTemperature 60).getCurrentTemperature = 25 ∧
    ((0:ℚ) ≤ 25 ∧ (25:ℚ) ≤ 50) ∧
    (((ADS1015.init 72).setTemperature 60).setTemperature 25).getCurrentTemperature = 25 ∧
    (((ADS1015.init 72).setTemperature 60).setTemperature 25).getLastError ≠
      PHXError.TEMP_INVALID := by
  have h1 := (c6_setTemperature_validation (ADS1015.init 72) 60).1 (by norm_num)
  have h2 := (c6_setTemperature_validation ((ADS1015.init 72).setTemperature 60) 25).2
    (by norm_num)
  refine ⟨by norm_num, h1.1, ?_, by norm_num, h2.1, h2.2.2⟩
  rw [h1.2]; rfl

theorem c7_startReading_nonidle_noop_witness :
    c7witState.getState ≠ PHXState.IDLE ∧
    c7witState.startReading oneSamplePh = c7witState :=
  ⟨by decide, c7_startReading_nonidle_noop c7witState oneSamplePh (by decide)⟩

theorem c10_calibratePHX_unknown_type_witness :
    ("xx" : String) ≠ "ph" ∧ ("xx" : String) ≠ "rx" ∧
    ((ADS1015.init 72).calibratePHX "xx" ⟨1, 2, 3, 4⟩).ph_cal = (ADS1015.init 72).ph_cal ∧
    ((ADS1015.init 72).calibratePHX "xx" ⟨1, 2, 3, 4⟩).orp_cal = (ADS1015.init 72).orp_cal := by
  have h := c10_calibratePHX_unknown_type (ADS1015.init 72) "xx" ⟨1, 2, 3, 4⟩
    (by decide) (by decide)
  exact ⟨by decide, by decide, h.1, h.2⟩

theorem c1_calibration_formula_witness :
    (ADS1015.init 72).getState = PHXState.IDLE ∧
    (1 : Int) ≤ oneSamplePh.samples ∧
    (cycleRun (ADS1015.init 72) oneSamplePh [(10, 1), (20, 0)]).isReadingComplete = true ∧
    (∃ buf : List FVal, buf.length = oneSamplePh.samples.toNat ∧
      (∀ v ∈ buf, ∃ q : ℚ, v = FVal.fin q) ∧
      (1/1000 < |(if oneSamplePh.type = "ph" then (ADS1015.init 72).ph_cal
          else (ADS1015.init 72).orp_cal).ref2_mV -
          (if oneSamplePh.type = "ph" then (ADS1015.init 72).ph_cal
          else (ADS1015.init 72).orp_cal).ref1_mV| →
        ¬ (oneSamplePh.type = "ph" ∧
            (ADS1015.init 72).isTemperatureCompensationEnabled = true ∧
            isValidTemperature (ADS1015.init 72).getCurrentTemperature = true) →
        (cycleRun (ADS1015.init 72) oneSamplePh [(10, 1), (20, 0)]).getLastReading =
          (rangeValidate oneSamplePh.type
            (calibratedValue (if oneSamplePh.type = "ph" then (ADS1015.init 72).ph_cal
              else (ADS1015.init 72).orp_cal) (averagedMV buf)) PHXError.NONE).1 ∧
        (cycleRun (ADS1015.init 72) oneSamplePh [(10, 1), (20, 0)]).getLastError =
          (rangeValidate oneSamplePh.type
            (calibratedValue (if oneSamplePh.type = "ph" then (ADS1015.init 72).ph_cal
              else (ADS1015.init 72).orp_cal) (averagedMV buf)) PHXError.NONE).2) ∧
      (¬ (1/1000 < |(if oneSamplePh.type = "ph" then (ADS1015.init 72).ph_cal
          else (ADS1015.init 72).orp_cal).ref2_mV -
          (if oneSamplePh.type = "ph" then (ADS1015.init 72).ph_cal
          else (ADS1015.init 72).orp_cal).ref1_mV|) →
        (cycleRun (ADS1015.init 72) oneSamplePh [(10, 1), (20, 0)]).getLastReading =
          averagedMV buf ∧
        (cycleRun (ADS1015.init 72) oneSamplePh [(10, 1), (20, 0)]).getLastError =
          PHXError.NONE)) ∧
    (cycleRun (ADS1015.init 72) oneSamplePh [(10, 1), (20, 0)]).getLastReading = 3 ∧
    (cycleRun (ADS1015.init 72) oneSamplePh [(10, 1), (20, 0)]).getLastError =
      PHXError.NONE := by
  have hvals : (cycleRun (ADS1015.init 72) oneSamplePh [(10, 1), (20, 0)]).isReadingComplete
        = true ∧
      (cycleRun (ADS1015.init 72) oneSamplePh [(10, 1), (20, 0)]).getLastReading = 3 ∧
      (cycleRun (ADS1015.init 72) oneSamplePh [(10, 1), (20, 0)]).getLastError =
        PHXError.NONE := by
    norm_num [cycleRun, runUpdates, ADS1015.updateReading, ADS1015.startReading,
      ADS1015.processingStep, sampleDue, sampleVoltage, voltageRangeForGain,
      validValues, FVal.toFin?, calibratedValue, rangeValidate, constrain,
      isValidTemperature, applyTemperatureCompensation, averagedMV,
      oneSamplePh, ADS1015.init, ADS1015.getLastReading, ADS1015.getLastError,
      ADS1015.isReadingComplete, ADS1015_REG_SET_GAIN0_6_144V, MAX_AVG_BUFFER,
      List.filterMap_cons, List.filterMap_nil, -List.length_eq_zero]
  exact ⟨rfl, by decide, hvals.1,
    c1_calibration_formula (ADS1015.init 72) oneSamplePh [(10, 1), (20, 0)] rfl
      (by decide) hvals.1, hvals.2.1, hvals.2.2⟩

theorem c2_calibration_roundtrip_witness :
    c2cexStart.getState = PHXState.IDLE ∧
    (1 : Int) ≤ oneSamplePh.samples ∧
    c2cexStart.ph_cal = (⟨0, 100, 4, 7⟩ : PHX_Calibration) ∧
    oneSamplePh.type = "ph" ∧
    c2cexStart.isTemperatureCompensationEnabled = false ∧
    (cycleRun c2cexStart oneSamplePh [(10, 25), (20, 0)]).isReadingComplete = true ∧
    (∃ buf : List FVal, buf.length = oneSamplePh.samples.toNat ∧
      (∀ v ∈ buf, ∃ q : ℚ, v = FVal.fin q) ∧
      (averagedMV buf = 0 →
        (cycleRun c2cexStart oneSamplePh [(10, 25), (20, 0)]).getLastReading = 4 ∧
        (cycleRun c2cexStart oneSamplePh [(10, 25), (20, 0)]).getLastError = PHXError.NONE) ∧
      (averagedMV buf = 100 →
        (cycleRun c2cexStart oneSamplePh [(10, 25), (20, 0)]).getLastReading = 7 ∧
        (cycleRun c2cexStart oneSamplePh [(10, 25), (20, 0)]).getLastError = PHXError.NONE) ∧
      (averagedMV buf = 50 →
        (cycleRun c2cexStart oneSamplePh [(10, 25), (20, 0)]).getLastReading = 11/2 ∧
        (cycleRun c2cexStart oneSamplePh [(10, 25), (20, 0)]).getLastError = PHXError.NONE) ∧
      (averagedMV buf = 200 →
        calibratedValue c2cexStart.ph_cal 200 = 10 ∧
        (cycleRun c2cexStart oneSamplePh [(10, 25), (20, 0)]).getLastReading = 10 ∧
        (cycleRun c2cexStart oneSamplePh [(10, 25), (20, 0)]).getLastError =
          PHXError.NONE)) ∧
    (cycleRun c2cexStart oneSamplePh [(10, 25), (20, 0)]).getLastReading = 11/2 ∧
    (cycleRun c2cexStart oneSamplePh [(10, 25), (20, 0)]).getLastError = PHXError.NONE := by
  have hvals : (cycleRun c2cexStart oneSamplePh [(10, 25), (20, 0)]).isReadingComplete
        = true ∧
      (cycleRun c2cexStart oneSamplePh [(10, 25), (20, 0)]).getLastReading = 11/2 ∧
      (cycleRun c2cexStart oneSamplePh [(10, 25), (20, 0)]).getLastError =
        PHXError.NONE := by
    norm_num [cycleRun, runUpdates, ADS1015.updateReading, ADS1015.startReading,
      ADS1015.processingStep, sampleDue, sampleVoltage, voltageRangeForGain,
      validValues, FVal.toFin?, calibratedValue, rangeValidate, constrain,
      isValidTemperature, applyTemperatureCompensation, averagedMV, c2cexStart,
      oneSamplePh, ADS1015.init, ADS1015.getLastReading, ADS1015.getLastError,
      ADS1015.isReadingComplete, ADS1015_REG_SET_GAIN0_6_144V,
      ADS1015_REG_SET_GAIN1_4_096V, MAX_AVG_BUFFER,
      List.filterMap_cons, List.filterMap_nil, -List.length_eq_zero]
  exact ⟨rfl, by decide, rfl, rfl, rfl, hvals.1,
    c2_calibration_roundtrip c2cexStart oneSamplePh [(10, 25), (20, 0)] rfl (by decide)
      rfl rfl rfl hvals.1, hvals.2.1, hvals.2.2⟩

theorem c3_temperature_compensation_witness :
    c3witStart.getState = PHXState.IDLE ∧
    (1 : Int) ≤ oneSamplePh.samples ∧
    (cycleRun c3witStart oneSamplePh [(10, 75), (20, 0)]).isReadingComplete = true ∧
    (∃ buf : List FVal, buf.length = oneSamplePh.samples.toNat ∧
      (∀ v ∈ buf, ∃ q : ℚ, v = FVal.fin q) ∧
      (oneSamplePh.type = "ph" →
        1/1000 < |c3witStart.ph_cal.ref2_mV - c3witStart.ph_cal.ref1_mV| →
        c3witStart.isTemperatureCompensationEnabled = true →
        isValidTemperature c3witStart.getCurrentTemperature = true →
        (cycleRun c3witStart oneSamplePh [(10, 75), (20, 0)]).getLastReading =
          (rangeValidate "ph"
            (applyTemperatureCompensation (calibratedValue c3witStart.ph_cal (averagedMV buf))
              c3witStart.getCurrentTemperature) PHXError.NONE).1 ∧
        (cycleRun c3witStart oneSamplePh [(10, 75), (20, 0)]).getLastError =
          (rangeValidate "ph"
            (applyTemperatureCompensation (calibratedValue c3witStart.ph_cal (averagedMV buf))
              c3witStart.getCurrentTemperature) PHXError.NONE).2) ∧
      (oneSamplePh.type = "ph" →
        1/1000 < |c3witStart.ph_cal.ref2_mV - c3witStart.ph_cal.ref1_mV| →
        c3witStart.isTemperatureCompensationEnabled = false →
        (cycleRun c3witStart oneSamplePh [(10, 75), (20, 0)]).getLastReading =
          (rangeValidate "ph" (calibratedValue c3witStart.ph_cal (averagedMV buf))
            PHXError.NONE).1 ∧
        (cycleRun c3witStart oneSamplePh [(10, 75), (20, 0)]).getLastError =
          (rangeValidate "ph" (calibratedValue c3witStart.ph_cal (averagedMV buf))
            PHXError.NONE).2) ∧
      (oneSamplePh.type = "rx" →
        1/1000 < |c3witStart.orp_cal.ref2_mV - c3witStart.orp_cal.ref1_mV| →
        (cycleRun c3witStart oneSamplePh [(10, 75), (20, 0)]).getLastReading =
          (rangeValidate "rx" (calibratedValue c3witStart.orp_cal (averagedMV buf))
            PHXError.NONE).1 ∧
        (cycleRun c3witStart oneSamplePh [(10, 75), (20, 0)]).getLastError =
          (rangeValidate "rx" (calibratedValue c3witStart.orp_cal (averagedMV buf))
            PHXError.NONE).2)) ∧
    calibratedValue c3witStart.ph_cal 75 = 15/2 ∧
    applyTemperatureCompensation (15/2) 30 = 89545/11926 ∧
    (cycleRun c3witStart oneSamplePh [(10, 75), (20, 0)]).getLastReading = 89545/11926 ∧
    (cycleRun c3witStart oneSamplePh [(10, 75), (20, 0)]).getLastError = PHXError.NONE := by
  have hvals : (cycleRun c3witStart oneSamplePh [(10, 75), (20, 0)]).isReadingComplete
        = true ∧
      (cycleRun c3witStart oneSamplePh [(10, 75), (20, 0)]).getLastReading = 89545/11926 ∧
      (cycleRun c3witStart oneSamplePh [(10, 75), (20, 0)]).getLastError =
        PHXError.NONE := by
    norm_num [cycleRun, runUpdates, ADS1015.updateReading, ADS1015.startReading,
      ADS1015.processingStep, sampleDue, sampleVoltage, voltageRangeForGain,
      validValues, FVal.toFin?, calibratedValue, rangeValidate, constrain,
      isValidTemperature, applyTemperatureCompensation, averagedMV, c3witStart,
      oneSamplePh, ADS1015.init, ADS1015.getLastReading, ADS1015.getLastError,
      ADS1015.isReadingComplete, ADS1015_REG_SET_GAIN0_6_144V,
      ADS1015_REG_SET_GAIN1_4_096V, ADS1015_REG_SET_GAIN2_2_048V,
      ADS1015_REG_SET_GAIN4_1_024V, ADS1015_REG_SET_GAIN8_0_512V,
      ADS1015_REG_SET_GAIN16_0_256V, MAX_AVG_BUFFER,
      List.filterMap_cons, List.filterMap_nil, -List.length_eq_zero]
  refine ⟨rfl, by decide, hvals.1,
    c3_temperature_compensation c3witStart oneSamplePh [(10, 75), (20, 0)] rfl
      (by decide) hvals.1, ?_, ?_, hvals.2.1, hvals.2.2⟩
  · norm_num [calibratedValue, c3witStart, ADS1015.init]
  · norm_num [applyTemperatureCompensation]

theorem c4_buffer_bounds_witness :
    (ADS1015.init 72).getState = PHXState.IDLE ∧
    (1 : Int) ≤ (⟨"ph", 2, 0, 1⟩ : PHXConfig).samples ∧
    (((cycleRun (ADS1015.init 72) ⟨"ph", 2, 0, 1⟩ [(10, 0)]).getState =
        PHXState.COLLECTING →
      ∃ buf : List FVal,
        (cycleRun (ADS1015.init 72) ⟨"ph", 2, 0, 1⟩ [(10, 0)])._readings = some buf ∧
        buf.length = (⟨"ph", 2, 0, 1⟩ : PHXConfig).samples.toNat ∧
        (cycleRun (ADS1015.init 72) ⟨"ph", 2, 0, 1⟩ [(10, 0)])._currentSample.toNat <
          buf.length) ∧
    ((cycleRun (ADS1015.init 72) ⟨"ph", 2, 0, 1⟩ [(10, 0)]).getState =
        PHXState.PROCESSING →
      ∃ buf : List FVal,
        (cycleRun (ADS1015.init 72) ⟨"ph", 2, 0, 1⟩ [(10, 0)])._readings = some buf ∧
        buf.length = (⟨"ph", 2, 0, 1⟩ : PHXConfig).samples.toNat)) ∧
    (cycleRun (ADS1015.init 72) ⟨"ph", 2, 0, 1⟩ [(10, 0)]).getState =
      PHXState.COLLECTING ∧
    (cycleRun (ADS1015.init 72) ⟨"ph", 2, 0, 1⟩ [(10, 0)])._currentSample = 1 :=
  ⟨rfl, by decide,
    c4_buffer_bounds (ADS1015.init 72) ⟨"ph", 2, 0, 1⟩ [(10, 0)] rfl (by decide),
    by decide, by decide⟩
